import Mathlib

/-!
Verification of the Naver map page component
(web/src/routes/(user)/map/korean/.../+page.svelte).

The component is embedded shallowly, function by function:

* `ViewerState` models the viewer-navigation state of the component:
  `viewingAssets` and `viewingAssetCursor` are the component fields of the
  same names; `displayed` records the argument last passed to `setAssetId`
  (`none` models the JavaScript value `undefined`); `navAssetId` records the
  shareable location kept by the `navigate` side channel (`none` models
  "no asset selected").  `onViewAssets`, `navigateNext` and
  `navigatePrevious` are direct translations of the source functions.
* `getFileCreatedDates` and `loadMapMarkers` are translated with the external
  luxon / Date parsers abstracted as oracles `String -> Option Int`
  (timestamps and durations are modelled as integers; `none` models an
  invalid parse).
* `appendScriptOnce` / `fireScriptEvent` give an event-trace semantics of the
  script bootstrapper, and the `sysStep` machine models `loadNaverStack`.
* `registeredListeners` and `cleanup` model the listeners registered in
  `onMount` and the cleanup closure returned at its end.
-/

namespace NaverMapPage

/-- State of the viewer navigation in the component (lines 105-132 of the
source).  `displayed` is the argument last handed to `setAssetId`;
`navAssetId` is the asset referenced by the shareable location, written only
by explicit `navigate` calls. -/
structure ViewerState where
  viewingAssets : List String
  viewingAssetCursor : Int
  displayed : Option String
  navAssetId : Option String
deriving DecidableEq

/-- Component state before any interaction: `viewingAssets = []`,
`viewingAssetCursor = 0`, nothing displayed, no asset in the location. -/
def initialViewer : ViewerState := ⟨[], 0, none, none⟩

/-- `onViewAssets(assetIds)` (source lines 108-112): stores the id list,
resets the cursor to 0 and calls `setAssetId(assetIds[0])`.  The JavaScript
index read `assetIds[0]` is `List.get? ids 0` (`none` = `undefined`).  No
`navigate` call is made here, so `navAssetId` is untouched. -/
def onViewAssets (s : ViewerState) (assetIds : List String) : ViewerState :=
  { s with
    viewingAssets := assetIds
    viewingAssetCursor := 0
    displayed := assetIds.get? 0 }

/-- `navigateNext()` (source lines 116-123): when `cursor < len - 1` it
increments the cursor, displays the asset at the new cursor, navigates to it
and returns `true`; otherwise it returns `false` without touching state.
The comparison is on JavaScript numbers, modelled by `Int`. -/
def navigateNext (s : ViewerState) : ViewerState × Bool :=
  if s.viewingAssetCursor < (s.viewingAssets.length : Int) - 1 then
    let c := s.viewingAssetCursor + 1
    let a := s.viewingAssets.get? c.toNat
    ({ s with viewingAssetCursor := c, displayed := a, navAssetId := a }, true)
  else
    (s, false)

/-- `navigatePrevious()` (source lines 125-132), symmetric at the start
boundary. -/
def navigatePrevious (s : ViewerState) : ViewerState × Bool :=
  if 0 < s.viewingAssetCursor then
    let c := s.viewingAssetCursor - 1
    let a := s.viewingAssets.get? c.toNat
    ({ s with viewingAssetCursor := c, displayed := a, navAssetId := a }, true)
  else
    (s, false)

/-- The trace of claim C1: `open(["a","b","c"])` followed by three
`next()` calls. -/
def c1s0 : ViewerState := onViewAssets initialViewer ["a", "b", "c"]

/-- First `next()` of the C1 trace. -/
def c1s1 : ViewerState × Bool := navigateNext c1s0

/-- Second `next()` of the C1 trace. -/
def c1s2 : ViewerState × Bool := navigateNext c1s1.1

/-- Third `next()` of the C1 trace. -/
def c1s3 : ViewerState × Bool := navigateNext c1s2.1

/-- Claim C1, counterexample to the statement as written: after
`open(["a","b","c"])` and two successful `next()` calls the cursor is `2`,
not `1`, so the claimed cursor sequence `0,1,1,1` is wrong (the second
`next()` succeeds because `1 < 3 - 1`). -/
theorem C1_counterexample :
    c1s2.1.viewingAssetCursor = 2 ∧ ¬ c1s2.1.viewingAssetCursor = 1 := by
  decide

/-- Claim C1 (amended): `open(["a","b","c"])` then `next()` three times
yields the cursor sequence `0,1,2,2`; the first two `next()` calls succeed,
the third fails and leaves the state unchanged.  In general `next()`
succeeds and increments the cursor exactly when `cursor < len - 1`, and
otherwise fails without any state change. -/
theorem C1_next_semantics :
    (∀ s : ViewerState,
      (s.viewingAssetCursor < (s.viewingAssets.length : Int) - 1 →
        (navigateNext s).2 = true ∧
        (navigateNext s).1.viewingAssetCursor = s.viewingAssetCursor + 1 ∧
        (navigateNext s).1.viewingAssets = s.viewingAssets) ∧
      (¬ s.viewingAssetCursor < (s.viewingAssets.length : Int) - 1 →
        navigateNext s = (s, false))) ∧
    (c1s0.viewingAssetCursor = 0 ∧
     c1s1.1.viewingAssetCursor = 1 ∧ c1s1.2 = true ∧
     c1s2.1.viewingAssetCursor = 2 ∧ c1s2.2 = true ∧
     c1s3.1.viewingAssetCursor = 2 ∧ c1s3.2 = false ∧
     c1s3.1 = c1s2.1) := by
  constructor
  · intro s
    constructor
    · intro h
      simp [navigateNext, h]
    · intro h
      simp [navigateNext, h]
  · decide

/-- Claim C1, witness: the general law of `C1_next_semantics` applied at the
concrete states of the trace, discharging both guard hypotheses. -/
theorem C1_next_semantics_witness :
    ((navigateNext c1s0).2 = true ∧
     (navigateNext c1s0).1.viewingAssetCursor = c1s0.viewingAssetCursor + 1 ∧
     (navigateNext c1s0).1.viewingAssets = c1s0.viewingAssets) ∧
    navigateNext c1s3.1 = (c1s3.1, false) :=
  ⟨(C1_next_semantics.1 c1s0).1 (by decide),
   (C1_next_semantics.1 c1s3.1).2 (by decide)⟩

/-- The state reached by opening `["a","b"]` from the pristine component
state, used as the concrete input of the C8 counterexample. -/
def c8open : ViewerState := onViewAssets initialViewer ["a", "b"]

/-- Claim C8, counterexample to the statement as written: `open(ids)` calls
`setAssetId(ids[0])` but performs no `navigate` call, so the external
navigation state (the shareable location) still references no asset, not
`ids[0]` as claimed. -/
theorem C8_counterexample :
    c8open.navAssetId = none ∧ ¬ c8open.navAssetId = some "a" := by
  decide

/-- Claim C8 (amended): from any state, `open(ids)` stores `ids`, resets the
cursor to 0 and displays `ids[0]` via the asset-display call, but leaves the
external navigation state unchanged (only `next`, `previous` and `close`
call `navigate`). -/
theorem C8_open_semantics :
    ∀ (s : ViewerState) (ids : List String),
      (onViewAssets s ids).viewingAssets = ids ∧
      (onViewAssets s ids).viewingAssetCursor = 0 ∧
      (onViewAssets s ids).displayed = ids.get? 0 ∧
      (onViewAssets s ids).navAssetId = s.navAssetId := by
  intro s ids
  simp [onViewAssets]

/-- Claim C10: `open([])` is not rejected: it still replaces the session
with `assetIds = []` and `cursor = 0`, and passes the out-of-range element
`ids[0]` — that is, `undefined`, modelled as `none` — to the asset-display
call.  No emptiness check guards the call. -/
theorem C10_open_empty :
    ∀ s : ViewerState,
      (onViewAssets s []).viewingAssets = [] ∧
      (onViewAssets s []).viewingAssetCursor = 0 ∧
      (onViewAssets s []).displayed = none ∧
      ([] : List String).get? 0 = none := by
  intro s
  simp [onViewAssets]

/-- The `$mapSettings` snapshot read by the component (preference store).
String fields use `""` for a missing value (JavaScript falsiness of the
empty string). -/
structure MapSettings where
  relativeDate : String
  dateAfter : String
  dateBefore : String
  includeArchived : Bool
  onlyFavorites : Bool
  withPartners : Bool
  withSharedAlbums : Bool
deriving DecidableEq

/-- The object returned by `getFileCreatedDates` (source lines 63-83):
optional ISO timestamps, modelled as integers; a missing key and an
`undefined` value are both `none`. -/
structure DateFilter where
  fileCreatedAfter : Option Int
  fileCreatedBefore : Option Int
deriving DecidableEq

/-- The body of the `try` block of `getFileCreatedDates` (source lines
73-77).  `dateParse` models `x => new Date(x).toISOString()`: `none` means
the conversion throws (invalid date), which the translation surfaces as
`Except.error`.  JavaScript evaluates the `fileCreatedAfter` property first,
so a failing `dateAfter` parse throws before `dateBefore` is looked at. -/
def tryFileCreatedDates (dateParse : String → Option Int) (s : MapSettings) :
    Except Unit DateFilter :=
  match (if s.dateAfter = "" then some none else (dateParse s.dateAfter).map some) with
  | none => .error ()
  | some a =>
    match (if s.dateBefore = "" then some none else (dateParse s.dateBefore).map some) with
    | none => .error ()
    | some b => .ok ⟨a, b⟩

/-- `getFileCreatedDates()` (source lines 63-83).  `durFromISO` models
`Duration.fromISO` (`none` = invalid duration), `now` the reference time
`DateTime.now()`.  The result pairs the returned filter with the settings
store after the call, since the `catch` arm writes
`$mapSettings.dateAfter = '' ` and `$mapSettings.dateBefore = ''`. -/
def getFileCreatedDates (durFromISO dateParse : String → Option Int)
    (now : Int) (s : MapSettings) : DateFilter × MapSettings :=
  if s.relativeDate ≠ "" then
    match durFromISO s.relativeDate with
    | some d => (⟨some (now - d), none⟩, s)
    | none => (⟨none, none⟩, s)
  else
    match tryFileCreatedDates dateParse s with
    | .ok f => (f, s)
    | .error _ => (⟨none, none⟩, { s with dateAfter := "", dateBefore := "" })

/-- Claim C5: whenever a valid relative duration `d` is configured
(`relativeDate` non-empty and parsed by `Duration.fromISO`), filter
derivation at reference time `now` produces
`fileCreatedAfter = now - d` and leaves `fileCreatedBefore` unset, ignoring
any stored absolute `dateAfter` / `dateBefore` values (which stay
untouched in the settings as well). -/
theorem C5_relative_filter (durFromISO dateParse : String → Option Int)
    (now d : Int) (s : MapSettings)
    (h1 : s.relativeDate ≠ "") (h2 : durFromISO s.relativeDate = some d) :
    getFileCreatedDates durFromISO dateParse now s = (⟨some (now - d), none⟩, s) := by
  simp [getFileCreatedDates, h1, h2]

/-- Concrete settings for the C5 witness: a valid 7-day relative duration
together with garbage absolute dates. -/
def c5settings : MapSettings :=
  ⟨"P7D", "not-a-date", "also-not-a-date", false, false, false, false⟩

/-- Concrete duration oracle for the C5 witness: only `"P7D"` is a valid
ISO duration, worth 7 time units. -/
def c5dur : String → Option Int := fun x => if x = "P7D" then some 7 else none

/-- Claim C5, witness: `C5_relative_filter` applied at the concrete
settings `c5settings`, reference time 100 and duration oracle `c5dur`. -/
theorem C5_relative_filter_witness :
    getFileCreatedDates c5dur (fun _ => none) 100 c5settings =
      (⟨some (100 - 7), none⟩, c5settings) :=
  C5_relative_filter c5dur (fun _ => none) 100 7 c5settings (by decide) (by decide)

/-- Claim C6: if no relative duration is set and parsing a stored absolute
`dateAfter` or `dateBefore` value throws, `getFileCreatedDates` clears both
stored fields, returns the empty (unfiltered) date filter, and raises no
error: the `catch` arm turns the throw into a normal return, so the load
proceeds as an unfiltered request. -/
theorem C6_parse_failure_recovery (durFromISO dateParse : String → Option Int)
    (now : Int) (s : MapSettings)
    (h1 : s.relativeDate = "")
    (h2 : (s.dateAfter ≠ "" ∧ dateParse s.dateAfter = none) ∨
          (s.dateBefore ≠ "" ∧ dateParse s.dateBefore = none)) :
    getFileCreatedDates durFromISO dateParse now s =
      (⟨none, none⟩, { s with dateAfter := "", dateBefore := "" }) := by
  have herr : tryFileCreatedDates dateParse s = .error () := by
    rcases h2 with ⟨ha, hpa⟩ | ⟨hb, hpb⟩
    · simp [tryFileCreatedDates, ha, hpa]
    · by_cases hA : s.dateAfter = ""
      · simp [tryFileCreatedDates, hA, hb, hpb]
      · cases hres : dateParse s.dateAfter with
        | none => simp [tryFileCreatedDates, hA, hres]
        | some t => simp [tryFileCreatedDates, hA, hres, hb, hpb]
  simp [getFileCreatedDates, h1, herr]

/-- Concrete settings for the C6 witness: no relative duration, a malformed
absolute `dateAfter`, an empty `dateBefore`. -/
def c6settings : MapSettings :=
  ⟨"", "garbage", "", false, false, false, false⟩

/-- Claim C6, witness: `C6_parse_failure_recovery` applied at `c6settings`
with a date parser that rejects every input. -/
theorem C6_parse_failure_recovery_witness :
    getFileCreatedDates (fun _ => none) (fun _ => none) 0 c6settings =
      (⟨none, none⟩, { c6settings with dateAfter := "", dateBefore := "" }) :=
  C6_parse_failure_recovery (fun _ => none) (fun _ => none) 0 c6settings
    (by decide) (Or.inl ⟨by decide, rfl⟩)

/-- The loader's abort controllers, oldest first; `true` means the
controller's signal has been aborted.  The component field
`abortController` is the last entry (`none` when the list is empty). -/
structure LoaderState where
  controllers : List Bool
deriving DecidableEq

/-- `if (abortController) abortController.abort()` (source line 86): abort
the current controller when there is one. -/
def abortCurrent (l : List Bool) : List Bool :=
  if l.isEmpty then [] else l.dropLast ++ [true]

/-- One `loadMapMarkers()` call as it acts on the controllers (source lines
86-87): abort the current controller, then install a fresh, unaborted one
whose signal is attached to the new request. -/
def loadStep (l : List Bool) : List Bool :=
  abortCurrent l ++ [false]

/-- The controllers after `n` consecutive `loadMapMarkers()` calls starting
from the pristine component (no controller). -/
def loadIter (n : Nat) : List Bool :=
  loadStep^[n] []

/-- The query object handed to `getMapMarkers` (source lines 92-102).
Falsy-to-`undefined` coercions (`includeArchived || undefined` and so on)
become `Option`s; `signalIdx` is the position, in the issue order, of the
abort controller whose signal accompanies the request. -/
structure MapMarkersRequest where
  isArchived : Option Bool
  isFavorite : Option Bool
  fileCreatedAfter : Option Int
  fileCreatedBefore : Option Int
  withPartners : Option Bool
  withSharedAlbums : Option Bool
  signalIdx : Nat
deriving DecidableEq

/-- `loadMapMarkers()` (source lines 85-103): abort-and-replace the
controller, derive the date filter, and issue the request with the new
controller's signal.  Returns the new loader state, the settings after the
call (the filter derivation may clear fields), and the request. -/
def loadMapMarkers (durFromISO dateParse : String → Option Int) (now : Int)
    (s : MapSettings) (st : LoaderState) :
    LoaderState × MapSettings × MapMarkersRequest :=
  let controllers := loadStep st.controllers
  let fd := getFileCreatedDates durFromISO dateParse now s
  (⟨controllers⟩, fd.2,
    { isArchived := if s.includeArchived then some true else none
      isFavorite := if s.onlyFavorites then some true else none
      fileCreatedAfter := fd.1.fileCreatedAfter
      fileCreatedBefore := fd.1.fileCreatedBefore
      withPartners := if s.withPartners then some true else none
      withSharedAlbums := if s.withSharedAlbums then some true else none
      signalIdx := controllers.length - 1 })

theorem abortCurrent_length (l : List Bool) :
    (abortCurrent l).length = l.length := by
  cases l with
  | nil => rfl
  | cons a t =>
    simp [abortCurrent, List.length_dropLast]

theorem loadIter_succ_shape :
    ∀ n : Nat, loadIter (n + 1) = List.replicate n true ++ [false] := by
  intro n
  induction n with
  | zero => rfl
  | succ m ih =>
    have hstep : loadIter (m + 2) = loadStep (loadIter (m + 1)) :=
      Function.iterate_succ_apply' loadStep (m + 1) []
    rw [hstep, ih]
    have hne : (List.replicate m true ++ [false]).isEmpty = false := by
      cases m <;> simp [List.replicate]
    simp [loadStep, abortCurrent, hne, List.dropLast_concat,
      ← List.replicate_succ' m true]

theorem loadIter_dropLast_aborted (n : Nat) :
    (loadIter n).dropLast.all (fun b => b) = true := by
  cases n with
  | zero => rfl
  | succ m =>
    rw [loadIter_succ_shape m, List.dropLast_concat, List.all_eq_true]
    intro b hb
    have := List.eq_of_mem_replicate hb
    simp [this]

theorem loadIter_unaborted_is_last (n i : Nat)
    (h : (loadIter n)[i]? = some false) : i + 1 = n := by
  cases n with
  | zero => simp [loadIter] at h
  | succ m =>
    rw [loadIter_succ_shape m] at h
    by_cases hlt : i < m
    · rw [List.getElem?_append_left (by simpa using hlt)] at h
      rw [List.getElem?_replicate_of_lt hlt] at h
      simp at h
    · by_cases heq : i = m
      · omega
      · have hge : (List.replicate m true).length ≤ i := by
          simpa using Nat.le_of_not_lt hlt
        rw [List.getElem?_append_right hge] at h
        rw [List.getElem?_eq_none (by simp; omega)] at h
        exact absurd h (by simp)

/-- Claim C2: every `loadMapMarkers()` call first aborts the previous
controller and then issues its request with a fresh controller installed as
the new current one (`signalIdx` points at the newest controller).
Consequently, after any sequence of calls every controller except the most
recent one is aborted — at most one fetch is unaborted at any time — and a
request whose controller is still unaborted is necessarily the most recent
one, so a stale response can never overwrite the result of a newer call. -/
theorem C2_abort_policy :
    (∀ (durFromISO dateParse : String → Option Int) (now : Int)
        (s : MapSettings) (st : LoaderState),
      (loadMapMarkers durFromISO dateParse now s st).1.controllers =
        abortCurrent st.controllers ++ [false] ∧
      (loadMapMarkers durFromISO dateParse now s st).2.2.signalIdx + 1 =
        (loadMapMarkers durFromISO dateParse now s st).1.controllers.length) ∧
    (∀ n : Nat, (loadIter n).dropLast.all (fun b => b) = true) ∧
    (∀ n i : Nat, (loadIter n)[i]? = some false → i + 1 = n) := by
  refine ⟨?_, loadIter_dropLast_aborted, loadIter_unaborted_is_last⟩
  intro durFromISO dateParse now s st
  refine ⟨rfl, ?_⟩
  simp [loadMapMarkers, loadStep, abortCurrent_length]

/-- Claim C2, witness: after two calls the first controller is aborted and
only the second one remains live; `C2_abort_policy` identifies the live
request as the most recent. -/
theorem C2_abort_policy_witness :
    loadIter 2 = [true, false] ∧ (1 : Nat) + 1 = 2 :=
  ⟨by decide, C2_abort_policy.2.2 2 1 (by decide)⟩

/-- World state of the script bootstrapper (source lines 33-52).
`scripts` is the sequence of script tags the component has inserted into
the document, in insertion order: each entry holds the raw `src` string
assigned to the tag and whether the tag's one-shot terminal event (load or
error) has already fired.  `waiters` are the pending listener
registrations: pairs of the index of the tag listened on and the index of
the promise the listener settles.  `promises` records, for each promise
returned by `appendScriptOnce` in creation order, how many times its
resolve/reject functions have been invoked and whether the last settlement
was a resolution (`true`) or a rejection (`false`). -/
structure BootWorld where
  scripts : List (String × Bool)
  waiters : List (Nat × Nat)
  promises : List (Nat × Bool)
deriving DecidableEq

/-- A freshly loaded page: no tags, no listeners, no promises. -/
def emptyBootWorld : BootWorld := ⟨[], [], []⟩

/-- Settling the waiters of the tag at index `tag`: the promise at index
`k + i` gains one settlement, a resolution when the event is a load
(`ok = true`) and a rejection when it is an error. -/
def bumpFrom (ws : List (Nat × Nat)) (tag : Nat) (ok : Bool) :
    Nat → List (Nat × Bool) → List (Nat × Bool)
  | _, [] => []
  | k, c :: cs =>
    (if (tag, k) ∈ ws then (c.1 + 1, ok) else c) :: bumpFrom ws tag ok (k + 1) cs

/-- `appendScriptOnce(src, ready)` (source lines 33-52), parameterized by
the document's URL resolution `resolve`.  The existing-tag lookup on
source line 37 compares `s.src === src`, and the DOM getter
`HTMLScriptElement.src` returns the tag's raw attribute value absolutized
against the document base — so the lookup compares `resolve` of each
stored tag's raw src with the raw argument `src`, and a relative `src`
(whose resolved form differs from itself) never matches the tag it
inserted.  If `ready()` is already true the promise resolves immediately;
otherwise, if the lookup finds a first matching tag, one-shot load/error
listeners are attached to that tag and nothing is inserted; otherwise a
new tag with raw src `src` is inserted with the same handlers.  A load and
an error listener attached to the same tag are modelled as one waiter,
because a tag fires at most one of the two events and both are registered
with `once: true`. -/
def appendScriptOnce (resolve : String → String) (w : BootWorld) (src : String)
    (ready : Bool) : BootWorld :=
  if ready then
    { w with promises := w.promises ++ [(1, true)] }
  else
    match w.scripts.findIdx? (fun p => resolve p.1 == src) with
    | some i =>
      { w with
        waiters := w.waiters ++ [(i, w.promises.length)]
        promises := w.promises ++ [(0, false)] }
    | none =>
      { scripts := w.scripts ++ [(src, false)]
        waiters := w.waiters ++ [(w.scripts.length, w.promises.length)]
        promises := w.promises ++ [(0, false)] }

/-- The browser fires the terminal event of the tag at index `i`
(`ok = true` for `load`, `ok = false` for `error`).  Only a tag that has
not fired yet can fire; the event settles every waiter attached to that
tag and consumes those listeners.  A tag whose event has already fired
never fires again, so listeners attached afterwards stay pending
forever. -/
def fireScriptEvent (w : BootWorld) (i : Nat) (ok : Bool) : BootWorld :=
  match w.scripts[i]? with
  | some q =>
    if q.2 = false then
      { scripts := w.scripts.set i (q.1, true)
        waiters := w.waiters.filter (fun l => l.1 ≠ i)
        promises := bumpFrom w.waiters i ok 0 w.promises }
    else w
  | none => w

/-- An observable event of the bootstrapper subsystem: a call to
`appendScriptOnce` (with the value its `ready` predicate returns at call
time) or the firing of the terminal event of the tag at a given index. -/
inductive BootEvent
  | call (src : String) (ready : Bool)
  | fire (i : Nat) (ok : Bool)
deriving DecidableEq

/-- Interleaving semantics: one bootstrapper event acting on the world. -/
def bootStep (resolve : String → String) (w : BootWorld) (e : BootEvent) :
    BootWorld :=
  match e with
  | .call src ready => appendScriptOnce resolve w src ready
  | .fire i ok => fireScriptEvent w i ok

/-- The world produced by a trace of bootstrapper events on a fresh page,
under the document's URL resolution. -/
def runBoot (resolve : String → String) (t : List BootEvent) : BootWorld :=
  t.foldl (bootStep resolve) emptyBootWorld

/-- Invariant of the bootstrapper world: for any src that URL resolution
leaves unchanged, at most one tag with that raw src exists; every pending
listener waits on a promise that exists and is unsettled; no two listeners
settle the same promise; and no promise has been settled more than
once. -/
def BootInv (resolve : String → String) (w : BootWorld) : Prop :=
  (∀ src : String, resolve src = src → (w.scripts.map Prod.fst).count src ≤ 1) ∧
  (∀ l ∈ w.waiters, w.promises[l.2]? = some (0, false)) ∧
  (w.waiters.map Prod.snd).Nodup ∧
  (∀ c ∈ w.promises, c.1 ≤ 1)

theorem getElem?_some_lt {α : Type} {l : List α} {n : Nat} {a : α}
    (h : l[n]? = some a) : n < l.length := by
  by_contra hge
  rw [List.getElem?_eq_none (Nat.le_of_not_lt hge)] at h
  exact absurd h (by simp)

theorem bumpFrom_getElem? (ws : List (Nat × Nat)) (tag : Nat) (ok : Bool) :
    ∀ (ps : List (Nat × Bool)) (k i : Nat),
      (bumpFrom ws tag ok k ps)[i]? =
        (ps[i]?).map (fun c => if (tag, k + i) ∈ ws then (c.1 + 1, ok) else c) := by
  intro ps
  induction ps with
  | nil => intro k i; simp [bumpFrom]
  | cons c cs ih =>
    intro k i
    cases i with
    | zero => simp [bumpFrom]
    | succ j =>
      have harith : k + 1 + j = k + (j + 1) := by omega
      simp only [bumpFrom, List.getElem?_cons_succ]
      rw [ih (k + 1) j, harith]

theorem map_fst_set (l : List (String × Bool)) (i : Nat) (q : String × Bool)
    (b : Bool) (hq : l[i]? = some q) :
    (l.set i (q.1, b)).map Prod.fst = l.map Prod.fst := by
  apply List.ext_getElem?
  intro n
  rw [List.getElem?_map, List.getElem?_map]
  by_cases h : n = i
  · subst h
    rw [List.getElem?_set_self (getElem?_some_lt hq), hq]
    simp
  · rw [List.getElem?_set_ne (Ne.symm h)]

theorem bootInv_appendScriptOnce (resolve : String → String) (w : BootWorld)
    (src : String) (ready : Bool) (hw : BootInv resolve w) :
    BootInv resolve (appendScriptOnce resolve w src ready) := by
  obtain ⟨h1, h2, h3, h4⟩ := hw
  have hkeep : ∀ x : Nat × Bool, ∀ l ∈ w.waiters,
      (w.promises ++ [x])[l.2]? = some (0, false) := by
    intro x l hl
    rw [List.getElem?_append_left (getElem?_some_lt (h2 l hl))]
    exact h2 l hl
  have hcount : ∀ x : Nat × Bool, x.1 ≤ 1 →
      ∀ c ∈ w.promises ++ [x], c.1 ≤ 1 := by
    intro x hx c hc
    rcases List.mem_append.mp hc with hc | hc
    · exact h4 c hc
    · simp at hc; subst hc; exact hx
  have hfreshpid : ∀ tag : Nat,
      ((w.waiters ++ [(tag, w.promises.length)]).map Prod.snd).Nodup := by
    intro tag
    rw [List.map_append, List.nodup_append]
    refine ⟨h3, by simp, ?_⟩
    intro p hp hq
    simp at hq
    subst hq
    rcases List.mem_map.mp hp with ⟨l, hl, hlp⟩
    have := getElem?_some_lt (h2 l hl)
    omega
  have hwaitext : ∀ tag : Nat, ∀ l ∈ w.waiters ++ [(tag, w.promises.length)],
      (w.promises ++ [((0 : Nat), false)])[l.2]? = some (0, false) := by
    intro tag l hl
    rcases List.mem_append.mp hl with hl | hl
    · exact hkeep _ l hl
    · simp at hl
      subst hl
      exact List.getElem?_concat_length w.promises (0, false)
  unfold appendScriptOnce
  by_cases hready : ready = true
  · rw [if_pos hready]
    exact ⟨h1, hkeep _, h3, hcount (1, true) (by simp)⟩
  · rw [if_neg hready]
    cases hfind : w.scripts.findIdx? (fun p => resolve p.1 == src) with
    | some i =>
      exact ⟨h1, hwaitext i, hfreshpid i, hcount (0, false) (by simp)⟩
    | none =>
      refine ⟨?_, hwaitext w.scripts.length, hfreshpid w.scripts.length,
        hcount (0, false) (by simp)⟩
      intro S hres
      simp only [List.map_append, List.count_append, List.map_cons, List.map_nil]
      by_cases hS : S = src
      · subst hS
        have hnot : S ∉ w.scripts.map Prod.fst := by
          intro hmem
          rcases List.mem_map.mp hmem with ⟨q, hq, hq1⟩
          have hfalse : (resolve q.1 == S) = false := by
            simpa using List.findIdx?_eq_none_iff.mp hfind q hq
          rw [hq1, hres] at hfalse
          simp at hfalse
        rw [List.count_eq_zero.mpr hnot]
        simp [List.count_singleton_self]
      · have hz : List.count S [src] = 0 :=
          List.count_eq_zero.mpr (by simp [hS])
        rw [hz]
        simpa using h1 S hres

theorem bootInv_fireScriptEvent (resolve : String → String) (w : BootWorld)
    (i : Nat) (ok : Bool) (hw : BootInv resolve w) :
    BootInv resolve (fireScriptEvent w i ok) := by
  obtain ⟨h1, h2, h3, h4⟩ := hw
  unfold fireScriptEvent
  split
  next q hq =>
    split
    next hqfired =>
      refine ⟨?_, ?_, ?_, ?_⟩
      · intro S hres
        rw [map_fst_set w.scripts i q true hq]
        exact h1 S hres
      · intro l hl
        have hl' : l ∈ w.waiters := List.mem_of_mem_filter hl
        have hne : l.1 ≠ i := by
          have := List.of_mem_filter hl
          simpa using this
        rw [bumpFrom_getElem?, h2 l hl']
        have hnotin : (i, l.2) ∉ w.waiters := by
          intro hin
          have heq := List.inj_on_of_nodup_map h3 hin hl' rfl
          exact hne (by rw [← heq])
        simp [hnotin]
      · exact List.Nodup.sublist ((List.filter_sublist w.waiters).map Prod.snd) h3
      · intro c hc
        obtain ⟨j, hj⟩ := List.getElem?_of_mem hc
        rw [bumpFrom_getElem?] at hj
        cases hpj : w.promises[j]? with
        | none => rw [hpj] at hj; exact absurd hj (by simp)
        | some c0 =>
          rw [hpj] at hj
          replace hj : (if (i, 0 + j) ∈ w.waiters then (c0.1 + 1, ok) else c0) = c := by
            simpa using hj
          by_cases hwin : (i, 0 + j) ∈ w.waiters
          · have hval := h2 (i, 0 + j) hwin
            simp only [Nat.zero_add] at hval
            rw [hpj] at hval
            have hc0 : c0 = (0, false) := Option.some_inj.mp hval
            rw [if_pos hwin] at hj
            subst hc0
            simp [← hj]
          · rw [if_neg hwin] at hj
            subst hj
            exact h4 c0 (List.getElem?_mem hpj)
    next hqfired => exact ⟨h1, h2, h3, h4⟩
  next hq => exact ⟨h1, h2, h3, h4⟩

theorem bootInv_step (resolve : String → String) (w : BootWorld) (e : BootEvent)
    (hw : BootInv resolve w) : BootInv resolve (bootStep resolve w e) := by
  cases e with
  | call src ready => exact bootInv_appendScriptOnce resolve w src ready hw
  | fire i ok => exact bootInv_fireScriptEvent resolve w i ok hw

theorem bootInv_foldl (resolve : String → String) :
    ∀ (t : List BootEvent) (w : BootWorld),
      BootInv resolve w → BootInv resolve (t.foldl (bootStep resolve) w) := by
  intro t
  induction t with
  | nil => intro w hw; exact hw
  | cons e es ih =>
    intro w hw
    exact ih (bootStep resolve w e) (bootInv_step resolve w e hw)

theorem bootInv_empty (resolve : String → String) : BootInv resolve emptyBootWorld := by
  refine ⟨?_, ?_, ?_, ?_⟩ <;> simp [emptyBootWorld]

theorem bootInv_runBoot (resolve : String → String) (t : List BootEvent) :
    BootInv resolve (runBoot resolve t) :=
  bootInv_foldl resolve t emptyBootWorld (bootInv_empty resolve)

/-- `VITE_NAVER_CLIENT_ID ?? 'YOUR_NAVER_MAP_CLIENT_ID'` (source line 14),
taken at its fallback value. -/
def CLIENT_ID : String := "YOUR_NAVER_MAP_CLIENT_ID"

/-- The maps.js URL built on source line 56; an absolute URL, left
unchanged by URL resolution. -/
def mapsUrl : String :=
  "https://oapi.map.naver.com/openapi/v3/maps.js?ncpKeyId=" ++ CLIENT_ID

/-- The clustering plugin URL (source line 60); a relative URL, which URL
resolution rewrites to an absolute one. -/
def clusterUrl : String := "/MarkerClustering.js"

/-- A concrete URL resolution for the counterexamples: the page origin
absolutizes the relative clustering URL and leaves other (absolute) URLs
unchanged. -/
def c3resolve : String → String :=
  fun s => if s = clusterUrl then "https://immich.test" ++ clusterUrl else s

/-- Two `ready() = false` calls for the component's relative clustering
URL. -/
def c3dupTrace : List BootEvent :=
  [.call clusterUrl false, .call clusterUrl false]

/-- One caller inserts the tag for the absolute maps.js URL, the tag fires
its terminal event (an error, so the first promise is rejected once), then
a second caller with `ready() = false` attaches to the already-fired
tag. -/
def c3hangTrace : List BootEvent :=
  [.call mapsUrl false, .fire 0 false, .call mapsUrl false]

/-- Claim C3, counterexample to the statement as written, in both parts.
First, insertion is not unique: `HTMLScriptElement.src` returns the
absolutized URL, so for the relative `'/MarkerClustering.js'` the lookup
`s.src === src` never matches the tag a previous call inserted, and two
`ready() = false` calls with that identical src insert two tags.  Second,
not every caller's future settles: in the completed trace `c3hangTrace`
every inserted tag has fired its terminal event, yet the second caller's
promise has settle count 0 — its listeners were attached after the tag's
one-shot event had fired, so nothing can ever settle it. -/
theorem C3_counterexample :
    ((runBoot c3resolve c3dupTrace).scripts.map Prod.fst).count clusterUrl = 2 ∧
    (runBoot c3resolve c3hangTrace).scripts.all (fun p => p.2) = true ∧
    (runBoot c3resolve c3hangTrace).promises = [(1, false), (0, false)] := by
  decide

/-- Claim C3 (amended): for calls with an identical `src`, whether the
program deduplicates depends on URL resolution.  For a `src` left
unchanged by resolution (an absolute URL), at most one tag with that raw
src is ever inserted; for a `src` changed by resolution (a relative URL
such as the component's `'/MarkerClustering.js'`), the existing-tag lookup
never matches and every `ready() = false` call inserts a fresh tag (see
the counterexample).  No caller's future is ever settled more than once; a
caller whose `ready()` is true is resolved immediately, a call finding no
matching tag inserts exactly one, a call finding one inserts nothing, and
a caller attaching to a tag that is still pending is settled exactly once
when that tag's terminal event fires.  A `ready() = false` caller
attaching to a tag whose terminal event has already fired is never settled
(see the counterexample). -/
theorem C3_appendScriptOnce_semantics :
    (∀ (resolve : String → String) (t : List BootEvent) (src : String),
      resolve src = src →
        ((runBoot resolve t).scripts.map Prod.fst).count src ≤ 1) ∧
    (∀ (resolve : String → String) (t : List BootEvent),
      ∀ c ∈ (runBoot resolve t).promises, c.1 ≤ 1) ∧
    (∀ (resolve : String → String) (w : BootWorld) (src : String),
      (appendScriptOnce resolve w src true).promises = w.promises ++ [(1, true)]) ∧
    (∀ (resolve : String → String) (w : BootWorld) (src : String),
      w.scripts.findIdx? (fun p => resolve p.1 == src) = none →
        (appendScriptOnce resolve w src false).scripts = w.scripts ++ [(src, false)]) ∧
    (∀ (resolve : String → String) (w : BootWorld) (src : String) (i : Nat),
      w.scripts.findIdx? (fun p => resolve p.1 == src) = some i →
        (appendScriptOnce resolve w src false).scripts = w.scripts) ∧
    (∀ (resolve : String → String) (w : BootWorld) (src raw : String)
        (i : Nat) (ok : Bool),
      w.scripts.findIdx? (fun p => resolve p.1 == src) = some i →
      w.scripts[i]? = some (raw, false) →
        (fireScriptEvent (appendScriptOnce resolve w src false) i
            ok).promises[w.promises.length]? = some (1, ok)) := by
  refine ⟨fun resolve t => (bootInv_runBoot resolve t).1,
    fun resolve t => (bootInv_runBoot resolve t).2.2.2, ?_, ?_, ?_, ?_⟩
  · intro resolve w src
    simp [appendScriptOnce]
  · intro resolve w src hfind
    simp [appendScriptOnce, hfind]
  · intro resolve w src i hfind
    simp [appendScriptOnce, hfind]
  · intro resolve w src raw i ok hfind htag
    have h1 : appendScriptOnce resolve w src false =
        ⟨w.scripts, w.waiters ++ [(i, w.promises.length)],
         w.promises ++ [(0, false)]⟩ := by
      simp [appendScriptOnce, hfind]
    rw [h1]
    have h2 : fireScriptEvent
        ⟨w.scripts, w.waiters ++ [(i, w.promises.length)],
         w.promises ++ [(0, false)]⟩ i ok =
        ⟨w.scripts.set i (raw, true),
         (w.waiters ++ [(i, w.promises.length)]).filter (fun l => l.1 ≠ i),
         bumpFrom (w.waiters ++ [(i, w.promises.length)]) i ok 0
           (w.promises ++ [(0, false)])⟩ := by
      simp [fireScriptEvent, htag]
    rw [h2]
    rw [bumpFrom_getElem?, List.getElem?_concat_length]
    have hin : (i, 0 + w.promises.length) ∈
        w.waiters ++ [(i, w.promises.length)] := by
      simp
    simp [hin]

/-- Claim C3, witness: the parts of `C3_appendScriptOnce_semantics` with
hypotheses, applied at concrete inputs — the dedup bound at the absolute
maps.js URL over the hang trace, the settle-at-most-once bound at a
promise of the duplicate-insertion trace, the insertion on a fresh page,
and the no-insertion plus exactly-once settlement of a caller attaching to
the pending maps.js tag. -/
theorem C3_appendScriptOnce_semantics_witness :
    (((runBoot c3resolve c3hangTrace).scripts.map Prod.fst).count mapsUrl ≤ 1) ∧
    (((0 : Nat), false).1 ≤ 1) ∧
    ((appendScriptOnce c3resolve emptyBootWorld clusterUrl false).scripts =
      emptyBootWorld.scripts ++ [(clusterUrl, false)]) ∧
    ((appendScriptOnce c3resolve (runBoot c3resolve [.call mapsUrl false])
        mapsUrl false).scripts = (runBoot c3resolve [.call mapsUrl false]).scripts) ∧
    ((fireScriptEvent (appendScriptOnce c3resolve
        (runBoot c3resolve [.call mapsUrl false]) mapsUrl false) 0
        true).promises[(runBoot c3resolve [.call mapsUrl false]).promises.length]? =
      some (1, true)) :=
  ⟨C3_appendScriptOnce_semantics.1 c3resolve c3hangTrace mapsUrl (by decide),
   C3_appendScriptOnce_semantics.2.1 c3resolve c3dupTrace (0, false) (by decide),
   C3_appendScriptOnce_semantics.2.2.2.1 c3resolve emptyBootWorld clusterUrl
     (by decide),
   C3_appendScriptOnce_semantics.2.2.2.2.1 c3resolve
     (runBoot c3resolve [.call mapsUrl false]) mapsUrl 0 (by decide),
   C3_appendScriptOnce_semantics.2.2.2.2.2 c3resolve
     (runBoot c3resolve [.call mapsUrl false]) mapsUrl mapsUrl 0 true
     (by decide) (by decide)⟩

/-- Whether the promise at index `pid` has been resolved (settled at least
once, the settlement being a resolution, not a rejection).  `await`
resumes the suspended continuation exactly on resolution. -/
def isResolved (w : BootWorld) (pid : Nat) : Bool :=
  ((w.promises[pid]?).map (fun c => decide (0 < c.1) && c.2)).getD false

/-- A resolved promise stays resolved across any bootstrapper event, in
any world satisfying the invariant: listeners only settle promises that
are still unsettled. -/
theorem isResolved_mono (resolve : String → String) (w : BootWorld)
    (e : BootEvent) (pid : Nat) (hw : BootInv resolve w)
    (h : isResolved w pid = true) :
    isResolved (bootStep resolve w e) pid = true := by
  obtain ⟨h1, h2, h3, h4⟩ := hw
  cases hp : w.promises[pid]? with
  | none => simp [isResolved, hp] at h
  | some c =>
    have hc : 0 < c.1 ∧ c.2 = true := by simpa [isResolved, hp] using h
    cases e with
    | call src ready =>
      have hkeep : (bootStep resolve w (.call src ready)).promises[pid]? = some c := by
        simp only [bootStep, appendScriptOnce]
        split
        · exact (List.getElem?_append_left (getElem?_some_lt hp)).trans hp
        · split
          · exact (List.getElem?_append_left (getElem?_some_lt hp)).trans hp
          · exact (List.getElem?_append_left (getElem?_some_lt hp)).trans hp
      simp [isResolved, hkeep, hc]
    | fire i ok =>
      simp only [bootStep, fireScriptEvent]
      split
      next q hq =>
        split
        next hqfired =>
          have hnotin : (i, pid) ∉ w.waiters := by
            intro hin
            have hval := h2 _ hin
            rw [hp] at hval
            have hceq := Option.some_inj.mp hval
            rw [hceq] at hc
            exact absurd hc.1 (by simp)
          simp [isResolved, bumpFrom_getElem?, hp, hnotin, hc]
        next hqfired => simp [isResolved, hp, hc]
      next hq => simp [isResolved, hp, hc]

/-- Control state of `loadNaverStack()` (source lines 54-61): not yet
started, suspended at the first `await` (holding the index of the maps.js
promise), suspended at the second `await` (additionally holding the index
of the clustering promise), or finished. -/
inductive StackPhase
  | idle
  | awaitingMaps (mapsPid : Nat)
  | awaitingCluster (mapsPid : Nat) (clusterPid : Nat)
  | finished (mapsPid : Nat) (clusterPid : Nat)
deriving DecidableEq

/-- Combined state: the bootstrapper world, the control point of
`loadNaverStack`, and the log of `appendScriptOnce` calls it has issued,
in order. -/
structure SysState where
  world : BootWorld
  phase : StackPhase
  calls : List String
deriving DecidableEq

/-- Events of the combined system: `loadNaverStack` is entered (with the
value its first `ready` predicate returns), an arbitrary bootstrapper
event happens (other callers, tag events), or the event loop resumes one
of the two suspended `await` continuations — which is possible only once
the awaited promise is resolved. -/
inductive SysEvent
  | start (mapsReady : Bool)
  | world (e : BootEvent)
  | resumeMaps (clusterReady : Bool)
  | resumeCluster
deriving DecidableEq

/-- One step of `loadNaverStack` interleaved with the bootstrapper world,
under the document's URL resolution.  The call of `appendScriptOnce` for
the clustering plugin happens exactly at the `resumeMaps` transition,
which fires only when the maps.js promise is resolved — this is the
`await` on source line 57. -/
def sysStep (resolve : String → String) (s : SysState) (e : SysEvent) : SysState :=
  match e with
  | .start r =>
    match s.phase with
    | .idle =>
      { world := appendScriptOnce resolve s.world mapsUrl r
        phase := .awaitingMaps s.world.promises.length
        calls := s.calls ++ [mapsUrl] }
    | _ => s
  | .world ev => { s with world := bootStep resolve s.world ev }
  | .resumeMaps r =>
    match s.phase with
    | .awaitingMaps mp =>
      if isResolved s.world mp then
        { world := appendScriptOnce resolve s.world clusterUrl r
          phase := .awaitingCluster mp s.world.promises.length
          calls := s.calls ++ [clusterUrl] }
      else s
    | _ => s
  | .resumeCluster =>
    match s.phase with
    | .awaitingCluster mp cp =>
      if isResolved s.world cp then { s with phase := .finished mp cp } else s
    | _ => s

/-- A freshly mounted component: fresh world, `loadNaverStack` not yet
entered, no calls issued. -/
def initSys : SysState := ⟨emptyBootWorld, .idle, []⟩

/-- The combined state after a trace of system events, under the
document's URL resolution. -/
def runSys (resolve : String → String) (t : List SysEvent) : SysState :=
  t.foldl (sysStep resolve) initSys

/-- Ordering property of the bootstrap: the calls issued by
`loadNaverStack` are always a prefix of `[mapsUrl, clusterUrl]` in
declared order, and the clustering call is present only in states where
the maps.js promise is resolved. -/
def StackOrdered (s : SysState) : Prop :=
  match s.phase with
  | .idle => s.calls = []
  | .awaitingMaps _ => s.calls = [mapsUrl]
  | .awaitingCluster mp _ =>
      s.calls = [mapsUrl, clusterUrl] ∧ isResolved s.world mp = true
  | .finished mp _ =>
      s.calls = [mapsUrl, clusterUrl] ∧ isResolved s.world mp = true

/-- Joint invariant of the combined system. -/
def SysInv (resolve : String → String) (s : SysState) : Prop :=
  BootInv resolve s.world ∧ StackOrdered s

theorem sysInv_step (resolve : String → String) (s : SysState) (e : SysEvent)
    (h : SysInv resolve s) : SysInv resolve (sysStep resolve s e) := by
  obtain ⟨hb, ho⟩ := h
  cases e with
  | start r =>
    cases hp : s.phase with
    | idle =>
      have hcalls : s.calls = [] := by
        simpa only [StackOrdered, hp] using ho
      refine ⟨?_, ?_⟩
      · simp only [sysStep, hp]
        exact bootInv_appendScriptOnce resolve _ _ _ hb
      · simp only [SysInv, sysStep, StackOrdered, hp, hcalls]
        simp
    | awaitingMaps mp =>
      simp only [sysStep, hp]
      exact ⟨hb, ho⟩
    | awaitingCluster mp cp =>
      simp only [sysStep, hp]
      exact ⟨hb, ho⟩
    | finished mp cp =>
      simp only [sysStep, hp]
      exact ⟨hb, ho⟩
  | world ev =>
    refine ⟨bootInv_step resolve _ _ hb, ?_⟩
    cases hp : s.phase with
    | idle =>
      have hcalls : s.calls = [] := by simpa only [StackOrdered, hp] using ho
      simp only [sysStep, StackOrdered, hp]
      exact hcalls
    | awaitingMaps mp =>
      have hcalls : s.calls = [mapsUrl] := by simpa only [StackOrdered, hp] using ho
      simp only [sysStep, StackOrdered, hp]
      exact hcalls
    | awaitingCluster mp cp =>
      have ho' := by simpa only [StackOrdered, hp] using ho
      simp only [sysStep, StackOrdered, hp]
      exact ⟨ho'.1, isResolved_mono resolve s.world ev mp hb ho'.2⟩
    | finished mp cp =>
      have ho' := by simpa only [StackOrdered, hp] using ho
      simp only [sysStep, StackOrdered, hp]
      exact ⟨ho'.1, isResolved_mono resolve s.world ev mp hb ho'.2⟩
  | resumeMaps r =>
    cases hp : s.phase with
    | idle =>
      simp only [sysStep, hp]
      exact ⟨hb, ho⟩
    | awaitingMaps mp =>
      have hcalls : s.calls = [mapsUrl] := by simpa only [StackOrdered, hp] using ho
      by_cases hres : isResolved s.world mp = true
      · refine ⟨?_, ?_⟩
        · simp only [sysStep, hp, hres, if_true]
          exact bootInv_appendScriptOnce resolve _ _ _ hb
        · simp only [sysStep, StackOrdered, hp, hres, if_true]
          refine ⟨by simp [hcalls], ?_⟩
          exact isResolved_mono resolve s.world (.call clusterUrl r) mp hb hres
      · simp only [sysStep, hp, if_neg hres]
        exact ⟨hb, ho⟩
    | awaitingCluster mp cp =>
      simp only [sysStep, hp]
      exact ⟨hb, ho⟩
    | finished mp cp =>
      simp only [sysStep, hp]
      exact ⟨hb, ho⟩
  | resumeCluster =>
    cases hp : s.phase with
    | idle =>
      simp only [sysStep, hp]
      exact ⟨hb, ho⟩
    | awaitingMaps mp =>
      simp only [sysStep, hp]
      exact ⟨hb, ho⟩
    | awaitingCluster mp cp =>
      have ho' := by simpa only [StackOrdered, hp] using ho
      by_cases hres : isResolved s.world cp = true
      · refine ⟨?_, ?_⟩
        · simp only [sysStep, hp, hres, if_true]
          exact hb
        · simp only [sysStep, StackOrdered, hp, hres, if_true]
          exact ho'
      · simp only [sysStep, hp, if_neg hres]
        exact ⟨hb, ho⟩
    | finished mp cp =>
      simp only [sysStep, hp]
      exact ⟨hb, ho⟩

theorem sysInv_foldl (resolve : String → String) :
    ∀ (t : List SysEvent) (s : SysState),
      SysInv resolve s → SysInv resolve (t.foldl (sysStep resolve) s) := by
  intro t
  induction t with
  | nil => intro s hs; exact hs
  | cons e es ih => intro s hs; exact ih (sysStep resolve s e) (sysInv_step resolve s e hs)

theorem sysInv_runSys (resolve : String → String) (t : List SysEvent) :
    SysInv resolve (runSys resolve t) :=
  sysInv_foldl resolve t initSys ⟨bootInv_empty resolve, rfl⟩

/-- Claim C4: in every execution of the bootstrap — for every URL
resolution and every interleaving of system events — the script steps are
loaded strictly in declared order: the calls `loadNaverStack` has issued
are always a prefix of `[mapsUrl, clusterUrl]`, and whenever the
clustering call has been issued (phases `awaitingCluster` and `finished`,
entered only through the guarded `resumeMaps` transition) the maps.js load
promise is resolved — so the clustering plugin load is initiated only
after the base mapping library's load future has resolved. -/
theorem C4_script_order :
    ∀ (resolve : String → String) (t : List SysEvent),
      StackOrdered (runSys resolve t) :=
  fun resolve t => (sysInv_runSys resolve t).2


/-- A marker record from `getMapMarkers` (`MapMarkerResponseDto`):
`{id, lat, lon}`.  Coordinates are irrelevant to the click claims and are
modelled as integers. -/
structure MapMarkerResponseDto where
  id : String
  lat : Int
  lon : Int
deriving DecidableEq

/-- The id list built by the cluster click handler (source line 243):
`clusterMarker.get('cluster')._clusterMember.map(o => o.id)`, where
`_clusterMember` is the cluster's member list in insertion order. -/
def clusterClickIds (members : List MapMarkerResponseDto) : List String :=
  members.map (fun o => o.id)

/-- The cluster click handler (source lines 242-245): build the member id
list and hand it to `onViewAssets`. -/
def clusterClick (s : ViewerState) (members : List MapMarkerResponseDto) :
    ViewerState :=
  onViewAssets s (clusterClickIds members)

/-- The singleton marker click handler (source lines 273-277):
`onViewAssets([m.id])` with the marker's stored asset id. -/
def markerClick (s : ViewerState) (m : MapMarkerResponseDto) : ViewerState :=
  onViewAssets s [m.id]

/-- Claim C7: a cluster click hands `onViewAssets` exactly the member id
list in insertion order, which is stored unchanged as the session's asset
ids; a singleton marker click hands it the one-element list of that
marker's id; and for members `m1, m2, m3` the list is exactly
`["m1","m2","m3"]`. -/
theorem C7_click_id_lists :
    (∀ (s : ViewerState) (members : List MapMarkerResponseDto),
      (clusterClick s members).viewingAssets = members.map (fun o => o.id)) ∧
    (∀ (s : ViewerState) (m : MapMarkerResponseDto),
      (markerClick s m).viewingAssets = [m.id]) ∧
    clusterClickIds [⟨"m1", 0, 0⟩, ⟨"m2", 0, 0⟩, ⟨"m3", 0, 0⟩] =
      ["m1", "m2", "m3"] := by
  refine ⟨?_, ?_, by decide⟩
  · intro s members
    simp [clusterClick, onViewAssets, clusterClickIds]
  · intro s m
    simp [markerClick, onViewAssets]

/-- A listener registered during startup, tagged by what it listens on:
per-marker hover in/out (source lines 178-192), per-marker click (line
274), per-styled-cluster click and hover in/out (lines 242-262), and the
map idle listener (line 267). -/
inductive ListenerId
  | markerHoverIn (i : Nat)
  | markerHoverOut (i : Nat)
  | markerSelect (i : Nat)
  | mapIdle
  | clusterSelect (j : Nat)
  | clusterHoverIn (j : Nat)
  | clusterHoverOut (j : Nat)
deriving DecidableEq

/-- All listeners registered by a startup that built `markerCount` markers
and in which the clusterer invoked `stylingFunction` on
`styledClusterCount` cluster markers. -/
def registeredListeners (markerCount styledClusterCount : Nat) : List ListenerId :=
  ((List.range markerCount).flatMap fun i =>
    [.markerHoverIn i, .markerHoverOut i]) ++
  ((List.range styledClusterCount).flatMap fun j =>
    [.clusterSelect j, .clusterHoverIn j, .clusterHoverOut j]) ++
  ([.mapIdle] ++ (List.range markerCount).map fun i => .markerSelect i)

/-- Observable effects of running the cleanup closure. -/
structure CleanupEffects where
  removedListeners : List ListenerId
  clustererDetached : Bool
  fetchAborted : Bool
deriving DecidableEq

/-- The cleanup closure returned at the end of `onMount` (source lines
280-284): it removes the idle listener, and — through optional chaining —
detaches the clusterer when `mc` is non-null and aborts the current
controller when one exists, dereferencing neither when absent. -/
def cleanup (mc : Option Unit) (abortController : Option Unit) : CleanupEffects :=
  { removedListeners := [.mapIdle]
    clustererDetached := mc.isSome
    fetchAborted := abortController.isSome }

/-- The value `onMount`'s callback produces: the cleanup closure is created
only by the `return` at the end of the `try` block, after every startup
step succeeded; when startup aborts partway, the `catch` arm (source lines
285-287) returns nothing, so no teardown closure exists. -/
def onMountTeardown (startupCompleted : Bool) :
    Option (Option Unit → Option Unit → CleanupEffects) :=
  if startupCompleted then some cleanup else none

/-- Claim C9, counterexample to the statement as written: after a fully
successful startup with one marker, the marker click listener is among the
registered listeners but is not removed by the cleanup closure, which
removes only the map idle listener — so teardown does not remove all event
listeners registered during startup. -/
theorem C9_counterexample :
    ListenerId.markerSelect 0 ∈ registeredListeners 1 0 ∧
    ListenerId.markerSelect 0 ∉ (cleanup (some ()) (some ())).removedListeners := by
  decide

/-- Claim C9 (amended): the cleanup closure removes exactly the map idle
listener (per-marker and per-cluster listeners are not removed), detaches
the clusterer exactly when it exists, and aborts the outstanding fetch
controller exactly when one exists; thanks to the optional chaining it is
well-defined with both components absent and dereferences nothing.  After a
partial startup no cleanup closure is produced at all, so teardown can
never dereference uninitialized components. -/
theorem C9_teardown_semantics :
    (∀ mc abortController : Option Unit,
      (cleanup mc abortController).removedListeners = [ListenerId.mapIdle] ∧
      (cleanup mc abortController).clustererDetached = mc.isSome ∧
      (cleanup mc abortController).fetchAborted = abortController.isSome) ∧
    (∀ markerCount styledClusterCount : Nat,
      ListenerId.mapIdle ∈ registeredListeners markerCount styledClusterCount) ∧
    (cleanup none none).removedListeners = [ListenerId.mapIdle] ∧
    onMountTeardown false = none := by
  refine ⟨?_, ?_, rfl, rfl⟩
  · intro mc abortController
    exact ⟨rfl, rfl, rfl⟩
  · intro markerCount styledClusterCount
    simp [registeredListeners]

end NaverMapPage
